import Mathlib

/-!
Shallow embedding of the MapPy core (spreadsheet loaders, aggregation
strategies, and the observer-based data manager) and verification of the
specification's claims about it.

Sources embedded:
  * `src/data/models.py`        — `CountryData`, `RegionData`
  * `src/data/data_loader.py`   — `EnvironmentalDataLoader`, `TransportDataLoader`
  * `src/data/data_processor.py`— `CountryAggregationStrategy`, `TopNStrategy`
  * `src/utils/observers.py`    — `Subject.notify`, `DataManager`

Numbers are modelled as rationals (`ℚ`): Python floats at the granularity the
claims need, with exact arithmetic.  Python dicts are modelled as association
lists with insertion-order semantics (`dictInsert` replaces in place, else
appends — matching CPython's ordered dicts).  Wall-clock timestamps
(`_update_timestamp`) are outside the model.
-/

namespace MapPy

/-! ## Python dict as an insertion-ordered association list -/

/-- `d[k] = v` on a Python dict: replace the value in place if the key is
present, otherwise append a new entry at the end. -/
def dictInsert {κ ν : Type} [BEq κ] (m : List (κ × ν)) (k : κ) (v : ν) :
    List (κ × ν) :=
  if m.any (fun p => p.1 == k) then
    m.map (fun p => if p.1 == k then (k, v) else p)
  else
    m ++ [(k, v)]

/-- `d.get(k)` on a Python dict. -/
def dictGet? {κ ν : Type} [BEq κ] (m : List (κ × ν)) (k : κ) : Option ν :=
  (m.find? (fun p => p.1 == k)).map (·.2)

/-! ## Cells and grids

A spreadsheet cell as pandas hands it to the loaders: missing (`pd.isna`),
a numeric value, or a textual value. -/

inductive Cell : Type
  | na : Cell
  | num (q : ℚ) : Cell
  | str (s : String) : Cell
deriving DecidableEq, Repr

/-- The 2-D grid `pd.read_excel` produces: `ncols` = `len(df.columns)`,
`rows` indexed as `df.iloc[row, col]`.  Out-of-range access yields a
missing cell. -/
structure Grid : Type where
  ncols : Nat
  rows : List (List Cell)
deriving DecidableEq, Repr

def cellAt (g : Grid) (r c : Nat) : Cell :=
  ((g.rows[r]?).bind (fun row => row[c]?)).getD .na

/-- `range(start, stop, 2)` in Python. -/
def pyRange2 (start stop : Nat) : List Nat :=
  (List.range ((stop - start + 1) / 2)).map (fun i => start + 2 * i)

/-- `range(start, stop)` in Python. -/
def pyRange (start stop : Nat) : List Nat :=
  (List.range (stop - start)).map (fun i => start + i)

/-! ## String helpers

Structural (kernel-reducible) counterparts of Python's `str.strip()`,
`str.upper()`, slicing and `int(...)`. -/

def isPySpace (c : Char) : Bool :=
  c == ' ' || c == '\t' || c == '\n' || c == '\r'

def digitsVal? (l : List Char) : Option Nat :=
  if l ≠ [] ∧ l.all (·.isDigit) then
    some (l.foldl (fun n c => 10 * n + (c.toNat - 48)) 0)
  else none

/-- `s.strip()`. -/
def strTrim (s : String) : String :=
  ⟨(((s.data.dropWhile isPySpace).reverse).dropWhile isPySpace).reverse⟩

def charUpper (c : Char) : Char :=
  if 'a' ≤ c ∧ c ≤ 'z' then Char.ofNat (c.toNat - 32) else c

/-- `s.upper()` (ASCII, which is all the codes contain). -/
def strUpper (s : String) : String :=
  ⟨s.data.map charUpper⟩

/-- `s[:n]`. -/
def strTake (s : String) (n : Nat) : String :=
  ⟨s.data.take n⟩

/-- `int(s)` for a sign-and-digits literal; `none` when Python raises
`ValueError`. -/
def strToInt? (s : String) : Option Int :=
  match s.data with
  | '-' :: rest => (digitsVal? rest).map (fun n => -(n : Int))
  | '+' :: rest => (digitsVal? rest).map (fun n => (n : Int))
  | l => (digitsVal? l).map (fun n => (n : Int))

/-! ## Python value parsing on cells -/

/-- `int(str(cell).strip())` followed by the `2000 <= year <= 2030` check
(loader header scan); `none` when the conversion raises or the check fails. -/
def cellYear (c : Cell) : Option Int :=
  match c with
  | .na => none
  | .num q =>
      if q.den = 1 then
        if 2000 ≤ q.num ∧ q.num ≤ 2030 then some q.num else none
      else none
  | .str s =>
      match strToInt? (strTrim s) with
      | some y => if 2000 ≤ y ∧ y ≤ 2030 then some y else none
      | none => none

/-- `str(cell).replace(',', '').replace(' ', '')`. -/
def cleaned (s : String) : String :=
  ⟨s.data.filter (fun ch => ch ≠ ',' ∧ ch ≠ ' ')⟩

/-- `float(s)` for the decimal forms the spreadsheets contain
(optional sign, digits, optional fractional part); `none` when Python's
`float` would raise `ValueError`. -/
def parseRat? (s : String) : Option ℚ :=
  let cs := s.data
  let signed : Bool × List Char :=
    match cs with
    | '-' :: rest => (true, rest)
    | '+' :: rest => (false, rest)
    | _ => (false, cs)
  let body := signed.2
  let mag : Option ℚ :=
    match body.splitOn '.' with
    | [ip] => (digitsVal? ip).map (fun n => (n : ℚ))
    | [ip, fp] =>
        if ip.all (·.isDigit) ∧ fp.all (·.isDigit) ∧ (ip ≠ [] ∨ fp ≠ []) then
          some ((ip.foldl (fun n c => 10 * n + (c.toNat - 48)) 0 : ℚ) +
                (fp.foldl (fun n c => 10 * n + (c.toNat - 48)) 0 : ℚ) /
                  ((10 : ℚ) ^ fp.length))
        else none
    | _ => none
  mag.map (fun q => if signed.1 then -q else q)

/-- Environmental value cell: inside `pd.notna`, clean the string form,
treat `''`/`'i'` as missing, then `float(...)`; `none` when any step skips. -/
def envValue? (c : Cell) : Option ℚ :=
  match c with
  | .na => none
  | .num q => some q
  | .str s =>
      let t := cleaned s
      if t = "" ∨ t = "i" then none else parseRat? t

/-- Transport value cell: identical except the missing sentinel is `':'`. -/
def tranValue? (c : Cell) : Option ℚ :=
  match c with
  | .na => none
  | .num q => some q
  | .str s =>
      let t := cleaned s
      if t = "" ∨ t = ":" then none else parseRat? t

/-- `pd.isna(name) or not str(name).strip()` guard, returning the stripped
name on success. -/
def nameOf (c : Cell) : Option String :=
  match c with
  | .na => none
  | .num q => some (toString q)
  | .str s => if strTrim s = "" then none else some (strTrim s)

/-- `str(region_code).strip() if pd.notna(region_code) else 'UNKNOWN'`. -/
def codeOf (c : Cell) : String :=
  match c with
  | .na => "UNKNOWN"
  | .num q => strTrim (toString q)
  | .str s => strTrim s

/-! ## Entity model (`src/data/models.py`) -/

structure CountryData : Type where
  country_code : String
  country_name : String
  data_by_year : List (Int × ℚ)
  data_type : String
deriving DecidableEq, Repr

def CountryData.get_value_for_year (c : CountryData) (year : Int) : Option ℚ :=
  dictGet? c.data_by_year year

structure RegionData : Type where
  region_code : String
  region_name : String
  country_code : String
  nuts_level : Nat
  data_by_year : List (Int × ℚ)
deriving DecidableEq, Repr

def RegionData.get_value_for_year (r : RegionData) (year : Int) : Option ℚ :=
  dictGet? r.data_by_year year

/-! ## EnvironmentalDataLoader -/

def header_row : Nat := 8
def data_start_row : Nat := 10

/-- Header scan of `EnvironmentalDataLoader._parse_data`:
`for col_idx in range(1, len(df.columns), 2)` collecting valid years. -/
def envYears (g : Grid) : List Int :=
  (pyRange2 1 g.ncols).filterMap (fun c => cellYear (cellAt g header_row c))

/-- The same scan keeping the column each year was detected at. -/
def envYearCols (g : Grid) : List (Int × Nat) :=
  (pyRange2 1 g.ncols).filterMap
    (fun c => (cellYear (cellAt g header_row c)).map (fun y => (y, c)))

/-- The bounds-checked, cleaned, sign-checked read of the value cell at
column `c` of row `r` (`if value_col_idx < len(df.columns)` …
`if value > 0`). -/
def envCellCheck (g : Grid) (r c : Nat) : Option ℚ :=
  if c < g.ncols then
    match envValue? (cellAt g r c) with
    | some v => if 0 < v then some v else none
    | none => none
  else none

/-- Value lookup for the `i`-th collected year in row `r`:
`value_col_idx = 1 + (i * 2)`. -/
def envValueAt (g : Grid) (r i : Nat) : Option ℚ :=
  envCellCheck g r (1 + i * 2)

/-- The `data_by_year` dict built for row `r`. -/
def envRowSeries (g : Grid) (r : Nat) : List (Int × ℚ) :=
  (envYears g).enum.foldl
    (fun m iy =>
      match envValueAt g r iy.1 with
      | some v => dictInsert m iy.2 v
      | none => m)
    []

def country_codes : List (String × String) :=
  [("Poland", "PL"), ("Germany", "DE"), ("France", "FR"), ("Spain", "ES"),
   ("Italy", "IT"), ("Belgium", "BE"), ("Netherlands", "NL"), ("Austria", "AT"),
   ("Denmark", "DK"), ("Sweden", "SE"), ("Finland", "FI"), ("Norway", "NO"),
   ("Czech Republic", "CZ"), ("Czechia", "CZ"), ("Slovakia", "SK"),
   ("Hungary", "HU"), ("Slovenia", "SI"), ("Croatia", "HR"), ("Romania", "RO"),
   ("Bulgaria", "BG"), ("Lithuania", "LT"), ("Latvia", "LV"), ("Estonia", "EE"),
   ("Portugal", "PT"), ("Greece", "GR"), ("Ireland", "IE")]

/-- `EnvironmentalDataLoader._generate_country_code`. -/
def generate_country_code (country_name : String) : String :=
  ((country_codes.find? (fun p => p.1 == country_name)).map (·.2)).getD
    (strUpper (strTake country_name 2))

/-- One iteration of the row loop: skip when the name cell is blank or when
no valid (year, value) pair survives, else build the entity. -/
def envRowEntity? (g : Grid) (r : Nat) : Option CountryData :=
  match nameOf (cellAt g r 0) with
  | none => none
  | some nm =>
      let series := envRowSeries g r
      if series.isEmpty then none
      else some
        { country_code := generate_country_code nm
          country_name := nm
          data_by_year := series
          data_type := "environmental" }

/-- `EnvironmentalDataLoader._parse_data`. -/
def envParse (g : Grid) : List CountryData :=
  (pyRange data_start_row g.rows.length).filterMap (envRowEntity? g)

/-- Outcome of `pd.read_excel` as the `load` wrappers see it. -/
inductive ReadOutcome : Type
  | fileNotFound : ReadOutcome
  | ioError (msg : String) : ReadOutcome
  | ok (g : Grid) : ReadOutcome
deriving DecidableEq, Repr

/-- `EnvironmentalDataLoader.load`, with an explicit error channel so that a
propagating exception would be representable: the code catches
`FileNotFoundError` silently and every other exception with a log line,
returning `[]` in both cases, so every branch is `Except.ok`. -/
def envLoad (r : ReadOutcome) : Except String (List CountryData) :=
  match r with
  | .fileNotFound => .ok []
  | .ioError _ => .ok []
  | .ok g => .ok (envParse g)

/-! ## TransportDataLoader -/

/-- `TransportDataLoader._get_nuts_level`. -/
def get_nuts_level (region_code : String) : Nat :=
  if region_code = "" ∨ region_code = "UNKNOWN" then 0
  else
    let code_len := region_code.length
    if code_len = 2 then 0
    else if code_len = 3 then 1
    else if code_len = 4 then 2
    else 3

/-- `TransportDataLoader._extract_country_code`. -/
def extract_country_code (region_code : String) : String :=
  if region_code = "" ∨ region_code.length < 2 then "XX"
  else strUpper (strTake region_code 2)

/-- Header scan of `TransportDataLoader._parse_data`:
`for col_idx in range(2, len(df.columns), 2)`. -/
def tranYears (g : Grid) : List Int :=
  (pyRange2 2 g.ncols).filterMap (fun c => cellYear (cellAt g header_row c))

def tranYearCols (g : Grid) : List (Int × Nat) :=
  (pyRange2 2 g.ncols).filterMap
    (fun c => (cellYear (cellAt g header_row c)).map (fun y => (y, c)))

/-- The bounds-checked read of the value cell at column `c`: sentinel `':'`,
and the non-negative (`value >= 0`) check. -/
def tranCellCheck (g : Grid) (r c : Nat) : Option ℚ :=
  if c < g.ncols then
    match tranValue? (cellAt g r c) with
    | some v => if 0 ≤ v then some v else none
    | none => none
  else none

/-- Value lookup for the `i`-th collected year: `value_col_idx = 2 + (i * 2)`. -/
def tranValueAt (g : Grid) (r i : Nat) : Option ℚ :=
  tranCellCheck g r (2 + i * 2)

def tranRowSeries (g : Grid) (r : Nat) : List (Int × ℚ) :=
  (tranYears g).enum.foldl
    (fun m iy =>
      match tranValueAt g r iy.1 with
      | some v => dictInsert m iy.2 v
      | none => m)
    []

def tranRowEntity? (g : Grid) (r : Nat) : Option RegionData :=
  match nameOf (cellAt g r 1) with
  | none => none
  | some nm =>
      let code := codeOf (cellAt g r 0)
      let series := tranRowSeries g r
      if series.isEmpty then none
      else some
        { region_code := code
          region_name := nm
          country_code := extract_country_code code
          nuts_level := get_nuts_level code
          data_by_year := series }

/-- `TransportDataLoader._parse_data`. -/
def tranParse (g : Grid) : List RegionData :=
  (pyRange data_start_row g.rows.length).filterMap (tranRowEntity? g)

/-- `TransportDataLoader.load`; like `envLoad`, every exception is caught
and `[]` returned. -/
def tranLoad (r : ReadOutcome) : Except String (List RegionData) :=
  match r with
  | .fileNotFound => .ok []
  | .ioError _ => .ok []
  | .ok g => .ok (tranParse g)

/-! ## Union entity (`Union[CountryData, RegionData]`) -/

inductive Entity : Type
  | country (c : CountryData) : Entity
  | region (r : RegionData) : Entity
deriving DecidableEq, Repr

def Entity.get_value_for_year (e : Entity) (year : Int) : Option ℚ :=
  match e with
  | .country c => c.get_value_for_year year
  | .region r => r.get_value_for_year year

/-- `item.country_name if isinstance(item, CountryData) else item.region_name`. -/
def Entity.name (e : Entity) : String :=
  match e with
  | .country c => c.country_name
  | .region r => r.region_name

/-! ## CountryAggregationStrategy (`src/data/data_processor.py`) -/

/-- `list(range(start_year, end_year + 1))`. -/
def yearList (a b : Int) : List Int :=
  (List.range (b + 1 - a).toNat).map (fun i => a + i)

/-- The dense 0-filled per-year vector:
`value if value is not None else 0` over the year list. -/
def denseVals (m : List (Int × ℚ)) (years : List Int) : List ℚ :=
  years.map (fun y => (dictGet? m y).getD 0)

/-- `sum(vs) / len([v for v in vs if v > 0]) if any(v > 0 for v in vs) else 0`. -/
def posAverage (vs : List ℚ) : ℚ :=
  if vs.any (fun v => decide (0 < v)) then
    vs.sum / ((vs.filter (fun v => decide (0 < v))).length : ℚ)
  else 0

structure AggResult : Type where
  countries : List String
  values : List (List ℚ)
  years : List Int
  totals : List ℚ
  averages : List ℚ
deriving DecidableEq, Repr

/-- `CountryAggregationStrategy.process`: the per-qualifying-country appends
to the parallel result lists are rendered as maps over the filtered input
(order preserved). -/
def countryAggProcess (data : List CountryData) (year_range : Int × Int) :
    AggResult :=
  let years := yearList year_range.1 year_range.2
  let included := data.filter
    (fun c => (denseVals c.data_by_year years).any (fun v => decide (0 < v)))
  { countries := included.map (·.country_name)
    values := included.map (fun c => denseVals c.data_by_year years)
    years := years
    totals := included.map (fun c => (denseVals c.data_by_year years).sum)
    averages := included.map (fun c => posAverage (denseVals c.data_by_year years)) }

/-! ## TopNStrategy -/

/-- `self.sort_by` — the three key strings the metrics dict carries. -/
inductive SortKey : Type
  | total : SortKey
  | average : SortKey
  | latest : SortKey
deriving DecidableEq, Repr

/-- One `items_with_metrics` entry. -/
structure TopNItem : Type where
  item : Entity
  total : ℚ
  average : ℚ
  latest : ℚ
  values : List ℚ
deriving DecidableEq, Repr

def keyVal (sk : SortKey) (m : TopNItem) : ℚ :=
  match sk with
  | .total => m.total
  | .average => m.average
  | .latest => m.latest

/-- The positive-years-only value list
(`if value is not None and value > 0: values.append(value)`). -/
def topnPosVals (e : Entity) (a b : Int) : List ℚ :=
  (yearList a b).filterMap
    (fun y =>
      match e.get_value_for_year y with
      | some v => if 0 < v then some v else none
      | none => none)

/-- The metrics dict built for a qualifying entity
(`latest = item.get_value_for_year(end_year) or 0`; a stored `0.0` is falsy
in Python, so `or 0` coincides with defaulting to `0`). -/
def mkTopNItem (a b : Int) (e : Entity) : TopNItem :=
  let vals := topnPosVals e a b
  { item := e
    total := vals.sum
    average := vals.sum / (vals.length : ℚ)
    latest := (e.get_value_for_year b).getD 0
    values := vals }

/-- The `items_with_metrics` loop: keep an entity only if its positive-value
list is non-empty. -/
def topnMetrics (a b : Int) (data : List Entity) : List TopNItem :=
  data.filterMap
    (fun e => if (topnPosVals e a b).isEmpty then none else some (mkTopNItem a b e))

/-- `sorted(items_with_metrics, key=lambda x: x[self.sort_by], reverse=True)`:
CPython's sort is stable and `reverse=True` keeps equal keys in input order,
which is exactly a stable merge sort under the descending comparison. -/
def topnSort (sk : SortKey) (l : List TopNItem) : List TopNItem :=
  l.mergeSort (fun m₁ m₂ => decide (keyVal sk m₂ ≤ keyVal sk m₁))

structure TopNResult : Type where
  items : List Entity
  names : List String
  values : List (List ℚ)
  years : List Int
  totals : List ℚ
  averages : List ℚ
  sort_criterion : SortKey
deriving DecidableEq, Repr

/-- `TopNStrategy.process`. -/
def topnProcess (n : Nat) (sk : SortKey) (data : List Entity)
    (year_range : Int × Int) : TopNResult :=
  let a := year_range.1
  let b := year_range.2
  let sorted_items := (topnSort sk (topnMetrics a b data)).take n
  let years := yearList a b
  { items := sorted_items.map (·.item)
    names := sorted_items.map (fun m => m.item.name)
    values := sorted_items.map (fun m => denseVals
      (match m.item with
       | .country c => c.data_by_year
       | .region r => r.data_by_year) years)
    years := years
    totals := sorted_items.map (·.total)
    averages := sorted_items.map (·.average)
    sort_criterion := sk }

/-! ## DataManager (`src/utils/observers.py`) -/

/-- A `data_filter` value: the manager reads string-valued
(`country_code`) and integer-valued (`nuts_level`) criteria. -/
inductive FilterVal : Type
  | s (v : String) : FilterVal
  | n (v : Nat) : FilterVal
deriving DecidableEq, Repr

/-- The mutable fields of `DataManager` (the wall-clock `_timestamp` is
outside the model). -/
structure DMState : Type where
  env_data : List CountryData
  tran_data : List RegionData
  year_range : Int × Int
  selected_countries : List String
  selected_regions : List String
  data_filter : List (String × FilterVal)
deriving DecidableEq, Repr

/-- `DataManager.__init__` defaults. -/
def DMState.init : DMState :=
  { env_data := []
    tran_data := []
    year_range := (2018, 2022)
    selected_countries := []
    selected_regions := []
    data_filter := [] }

/-- Notification payloads (`data` argument of `Subject.notify`). -/
inductive EventPayload : Type
  | yearRangeChanged (old_range new_range : Int × Int) (span : Int)
  | countriesSelected (old_selection new_selection : List String) (count : Nat)
  | regionsSelected (old_selection new_selection : List String) (count : Nat)
  | filterApplied (old_filter new_filter criteria : List (String × FilterVal))
  | filtersCleared (old_filter : List (String × FilterVal))
  | envDataLoaded (count : Nat) (countries : List String)
  | tranDataLoaded (count : Nat) (countries : Nat) (nuts_levels : List Nat)
deriving DecidableEq, Repr

/-- An observer's `update(subject, event_type, data)`: it sees the manager
state, may have arbitrary effects we do not track, and may raise
(`Except.error`). -/
def ObserverFun : Type := DMState → String → EventPayload → Except String Unit

/-- `Subject.notify`: invoke every observer in registration order, catching
each exception and logging it (`some msg` in the returned log); a raise never
stops the loop. -/
def notifyAll (obs : List ObserverFun) (st : DMState) (event_type : String)
    (data : EventPayload) : List (Option String) :=
  obs.map
    (fun o =>
      match o st event_type data with
      | .ok _ => none
      | .error e => some e)

/-- `DataManager.set_year_range`: commit the assignment, then notify with the
already-committed state; returns the state and the per-observer error log. -/
def set_year_range (st : DMState) (obs : List ObserverFun)
    (yr : Int × Int) : DMState × List (Option String) :=
  let old_range := st.year_range
  let st' := { st with year_range := yr }
  (st', notifyAll obs st' "year_range_changed"
    (.yearRangeChanged old_range yr (yr.2 - yr.1 + 1)))

/-- `DataManager.set_selected_countries`. -/
def set_selected_countries (st : DMState) (obs : List ObserverFun)
    (countries : List String) : DMState × List (Option String) :=
  let old_selection := st.selected_countries
  let st' := { st with selected_countries := countries }
  (st', notifyAll obs st' "countries_selected"
    (.countriesSelected old_selection countries countries.length))

/-- `DataManager.set_selected_regions`. -/
def set_selected_regions (st : DMState) (obs : List ObserverFun)
    (regions : List String) : DMState × List (Option String) :=
  let old_selection := st.selected_regions
  let st' := { st with selected_regions := regions }
  (st', notifyAll obs st' "regions_selected"
    (.regionsSelected old_selection regions regions.length))

/-- `DataManager.load_environmental_data`. -/
def load_environmental_data (st : DMState) (obs : List ObserverFun)
    (data : List CountryData) : DMState × List (Option String) :=
  let st' := { st with env_data := data }
  (st', notifyAll obs st' "env_data_loaded"
    (.envDataLoaded data.length ((data.take 5).map (·.country_name))))

/-- `DataManager.load_transport_data` (`len(set(...))` and the sorted distinct
NUTS levels). -/
def load_transport_data (st : DMState) (obs : List ObserverFun)
    (data : List RegionData) : DMState × List (Option String) :=
  let st' := { st with tran_data := data }
  (st', notifyAll obs st' "tran_data_loaded"
    (.tranDataLoaded data.length
      ((data.map (·.country_code)).eraseDups.length
      )
      (((data.map (·.nuts_level)).eraseDups).mergeSort (fun a b => decide (a ≤ b)))))

/-- `DataManager.apply_filter`: `self.data_filter.update(filter_criteria)`. -/
def apply_filter (st : DMState) (obs : List ObserverFun)
    (filter_criteria : List (String × FilterVal)) : DMState × List (Option String) :=
  let old_filter := st.data_filter
  let st' := { st with
    data_filter := filter_criteria.foldl (fun m kv => dictInsert m kv.1 kv.2)
      st.data_filter }
  (st', notifyAll obs st' "filter_applied"
    (.filterApplied old_filter st'.data_filter filter_criteria))

/-- `DataManager.clear_filters`: `self.data_filter = {}`. -/
def clear_filters (st : DMState) (obs : List ObserverFun) :
    DMState × List (Option String) :=
  let old_filter := st.data_filter
  let st' := { st with data_filter := [] }
  (st', notifyAll obs st' "filters_cleared" (.filtersCleared old_filter))

/-- `DataManager.get_filtered_env_data`: the `if self.selected_countries:`
truthiness check followed by the name-membership comprehension. -/
def get_filtered_env_data (st : DMState) : List CountryData :=
  let fd := st.env_data
  if st.selected_countries.isEmpty then fd
  else fd.filter (fun c => st.selected_countries.contains c.country_name)

/-- The `data_filter`-criteria half of `get_filtered_tran_data`.
`'country_code'` is read via `.upper()`, which raises `AttributeError` on a
non-string value; `'nuts_level'` is compared with `==`, which in Python is
simply `False` between an `int` and a non-`int`. -/
def tranCriteriaNarrow (st : DMState) (fd : List RegionData) :
    Except String (List RegionData) :=
  let afterCC : Except String (List RegionData) :=
    match dictGet? st.data_filter "country_code" with
    | none => .ok fd
    | some (.s v) =>
        .ok (fd.filter (fun r => r.country_code == strUpper v))
    | some (.n _) => .error "AttributeError"
  match afterCC with
  | .error e => .error e
  | .ok fd' =>
      match dictGet? st.data_filter "nuts_level" with
      | none => .ok fd'
      | some (.n k) => .ok (fd'.filter (fun r => r.nuts_level == k))
      | some (.s _) => .ok (fd'.filter (fun _ => false))

/-- `DataManager.get_filtered_tran_data`. -/
def get_filtered_tran_data (st : DMState) : Except String (List RegionData) :=
  let fd := st.tran_data
  let fd :=
    if st.selected_regions.isEmpty then fd
    else fd.filter (fun r => st.selected_regions.contains r.region_name)
  tranCriteriaNarrow st fd

/-! ## Auxiliary definitions used by the verification -/

/-- The spec's pure length rule for NUTS levels
(2 chars → 0, 3 → 1, 4 → 2, anything else → 3), as the claim states it. -/
def levelLengthRule (code : String) : Nat :=
  if code.length = 2 then 0
  else if code.length = 3 then 1
  else if code.length = 4 then 2
  else 3

/-- The sort key TopN uses for an entity when `sort_by = 'total'`. -/
def topnTotalKey (e : Entity) (a b : Int) : ℚ :=
  (topnPosVals e a b).sum

/-- The per-observer outcome as `Subject.notify` records it: `none` for a
normal return, `some msg` for a caught-and-logged exception. -/
def caught (r : Except String Unit) : Option String :=
  match r with
  | .ok _ => none
  | .error e => some e

/-- No anchor cell of the environmental header row is skipped: every scanned
column holds a valid year. -/
abbrev noSkipEnvHeader (g : Grid) : Prop :=
  ∀ c ∈ pyRange2 1 g.ncols, (cellYear (cellAt g header_row c)).isSome = true

/-- No anchor cell of the transport header row is skipped. -/
abbrev noSkipTranHeader (g : Grid) : Prop :=
  ∀ c ∈ pyRange2 2 g.ncols, (cellYear (cellAt g header_row c)).isSome = true

/-! ### Concrete test fixtures -/

def emptyRow : List Cell := []

/-- The round-trip spreadsheet of C2: header row 8 holds 2018/2019/2020 at
columns 1, 3, 5; data row 10 holds "Testland" with values 100, 0, 50. -/
def gC2 : Grid :=
  { ncols := 6
    rows := [emptyRow, emptyRow, emptyRow, emptyRow, emptyRow, emptyRow,
             emptyRow, emptyRow,
             [Cell.na, Cell.num 2018, Cell.na, Cell.num 2019, Cell.na, Cell.num 2020],
             emptyRow,
             [Cell.str "Testland", Cell.num 100, Cell.na, Cell.num 0, Cell.na, Cell.num 50]] }

/-- A grid whose single year 2018 sits at header column 1 while the data row
holds 100 at column 1 and 999 at column 2 (= the claim's `c+1`). -/
def gC1a : Grid :=
  { ncols := 3
    rows := [emptyRow, emptyRow, emptyRow, emptyRow, emptyRow, emptyRow,
             emptyRow, emptyRow,
             [Cell.na, Cell.num 2018, Cell.na],
             emptyRow,
             [Cell.str "Aland", Cell.num 100, Cell.num 999]] }

/-- A grid whose header anchor at column 1 is blank and 2018 sits at
column 3; the data row holds 55 at column 1, 777 at column 3 and 999 at
column 4 (= the claim's `c+1` for the year detected at `c = 3`). -/
def gC1b : Grid :=
  { ncols := 5
    rows := [emptyRow, emptyRow, emptyRow, emptyRow, emptyRow, emptyRow,
             emptyRow, emptyRow,
             [Cell.na, Cell.na, Cell.na, Cell.num 2018, Cell.na],
             emptyRow,
             [Cell.str "Bland", Cell.num 55, Cell.na, Cell.num 777, Cell.num 999]] }

/-- A transport grid: year 2018 at header column 2, one region row whose
code cell is blank (so the code falls back to `'UNKNOWN'`) and whose 2018
value is the non-positive `0`. -/
def gTr : Grid :=
  { ncols := 4
    rows := [emptyRow, emptyRow, emptyRow, emptyRow, emptyRow, emptyRow,
             emptyRow, emptyRow,
             [Cell.na, Cell.na, Cell.num 2018, Cell.na],
             emptyRow,
             [Cell.na, Cell.str "Mazowsze", Cell.num 0, Cell.na]] }

/-- The region entity `gTr` parses to. -/
def rMazowsze : RegionData :=
  { region_code := "UNKNOWN"
    region_name := "Mazowsze"
    country_code := "UN"
    nuts_level := 0
    data_by_year := [(2018, 0)] }

/-- A country entity with the Testland series, for strategy-level witnesses. -/
def eTestland : CountryData :=
  { country_code := "TE"
    country_name := "Testland"
    data_by_year := [(2018, 100), (2020, 50)]
    data_type := "environmental" }

/-- An observer that always raises. -/
def oBoom : ObserverFun := fun _ _ _ => .error "boom"

/-- An observer that always returns normally. -/
def oQuiet : ObserverFun := fun _ _ _ => .ok ()

/-- A manager state with one loaded region and an active string filter. -/
def stW : DMState :=
  { env_data := [eTestland]
    tran_data := [rMazowsze]
    year_range := (2018, 2022)
    selected_countries := []
    selected_regions := []
    data_filter := [("country_code", FilterVal.s "PL")] }

/-! ## Helper lemmas -/

theorem mem_dictInsert {κ ν : Type} [BEq κ] {m : List (κ × ν)} {k : κ} {v : ν}
    {p : κ × ν} (h : p ∈ dictInsert m k v) : p ∈ m ∨ p = (k, v) := by
  unfold dictInsert at h
  split at h
  · rcases List.mem_map.mp h with ⟨q, hq, hEq⟩
    by_cases hk : (q.1 == k) = true
    · right; rw [if_pos hk] at hEq; exact hEq.symm
    · left; rw [if_neg hk] at hEq; exact hEq ▸ hq
  · rcases List.mem_append.mp h with h | h
    · exact Or.inl h
    · right; simpa using h

/-- Fold invariant for the `data_by_year` dict builders: if every value the
per-year lookup produces satisfies `P`, every stored value does. -/
theorem mem_foldl_series (f : Nat → Option ℚ) (P : ℚ → Prop)
    (hf : ∀ i v, f i = some v → P v) :
    ∀ (l : List (Nat × Int)) (m : List (Int × ℚ)),
      (∀ p ∈ m, P p.2) →
      ∀ p ∈ l.foldl
          (fun m iy =>
            match f iy.1 with
            | some v => dictInsert m iy.2 v
            | none => m) m,
        P p.2 := by
  intro l
  induction l with
  | nil => intro m hm p hp; exact hm p hp
  | cons hd tl ih =>
      intro m hm p hp
      rw [List.foldl_cons] at hp
      refine ih _ ?_ p hp
      intro q hq
      rcases h : f hd.1 with _ | v
      · rw [h] at hq; exact hm q hq
      · rw [h] at hq
        rcases mem_dictInsert hq with hq' | hq'
        · exact hm q hq'
        · rw [hq']; exact hf hd.1 v h

theorem envValueAt_pos {g : Grid} {r i : Nat} {v : ℚ}
    (h : envValueAt g r i = some v) : 0 < v := by
  unfold envValueAt envCellCheck at h
  split at h
  · split at h
    · split at h
      · injection h with h'; subst h'; assumption
      · nomatch h
    · nomatch h
  · nomatch h

theorem tranValueAt_nonneg {g : Grid} {r i : Nat} {v : ℚ}
    (h : tranValueAt g r i = some v) : 0 ≤ v := by
  unfold tranValueAt tranCellCheck at h
  split at h
  · split at h
    · split at h
      · injection h with h'; subst h'; assumption
      · nomatch h
    · nomatch h
  · nomatch h

theorem envRowSeries_pos (g : Grid) (r : Nat) :
    ∀ p ∈ envRowSeries g r, 0 < p.2 :=
  mem_foldl_series (envValueAt g r) (0 < ·)
    (fun _ _ h => envValueAt_pos h) (envYears g).enum [] (by simp)

theorem tranRowSeries_nonneg (g : Grid) (r : Nat) :
    ∀ p ∈ tranRowSeries g r, 0 ≤ p.2 :=
  mem_foldl_series (tranValueAt g r) (0 ≤ ·)
    (fun _ _ h => tranValueAt_nonneg h) (tranYears g).enum [] (by simp)

theorem envParse_mem_series {g : Grid} {e : CountryData} (h : e ∈ envParse g) :
    ∃ r, e.data_by_year = envRowSeries g r := by
  rcases List.mem_filterMap.mp h with ⟨r, _, hr⟩
  refine ⟨r, ?_⟩
  unfold envRowEntity? at hr
  split at hr
  · nomatch hr
  · dsimp only at hr
    split at hr
    · nomatch hr
    · injection hr with hr'; rw [← hr']

theorem tranParse_mem_shape {g : Grid} {e : RegionData} (h : e ∈ tranParse g) :
    ∃ r, e.data_by_year = tranRowSeries g r ∧
         e.region_code = codeOf (cellAt g r 0) ∧
         e.nuts_level = get_nuts_level (codeOf (cellAt g r 0)) := by
  rcases List.mem_filterMap.mp h with ⟨r, _, hr⟩
  refine ⟨r, ?_⟩
  unfold tranRowEntity? at hr
  split at hr
  · nomatch hr
  · dsimp only at hr
    split at hr
    · nomatch hr
    · injection hr with hr'; rw [← hr']; exact ⟨rfl, rfl, rfl⟩

theorem get_nuts_level_eq_rule (code : String) :
    get_nuts_level code =
      if code = "" ∨ code = "UNKNOWN" then 0 else levelLengthRule code := rfl

/-- `filterMap` over a list on which the function never skips is a `map`. -/
theorem filterMap_eq_map_of_isSome {α β : Type} (f : α → Option β) (d : β) :
    ∀ l : List α, (∀ a ∈ l, (f a).isSome = true) →
      l.filterMap f = l.map (fun a => (f a).getD d) := by
  intro l
  induction l with
  | nil => intro _; rfl
  | cons hd tl ih =>
      intro h
      rcases Option.isSome_iff_exists.mp (h hd (by simp)) with ⟨b, hb⟩
      simp [List.filterMap_cons, hb, ih (fun a ha => h a (by simp [ha]))]

/-- Collecting only the years is the first projection of collecting
(year, column) pairs. -/
theorem filterMap_year_fst (yc : Nat → Option Int) (l : List Nat) :
    l.filterMap yc =
      (l.filterMap (fun c => (yc c).map (fun y => (y, c)))).map Prod.fst := by
  induction l with
  | nil => rfl
  | cons hd tl ih => cases h : yc hd <;> simp [List.filterMap_cons, h, ih]

theorem dictGet?_insert_self {κ ν : Type} [BEq κ] [LawfulBEq κ]
    (m : List (κ × ν)) (k : κ) (v : ν) :
    dictGet? (dictInsert m k v) k = some v := by
  unfold dictInsert
  split
  case isTrue h =>
    induction m with
    | nil => simp at h
    | cons hd tl ih =>
        by_cases hk : (hd.1 == k) = true
        · simp [dictGet?, List.find?, hk]
        · have h' : tl.any (fun p => p.1 == k) = true := by
            simpa [List.any_cons, hk] using h
          simpa [dictGet?, List.find?, hk] using ih h'
  case isFalse h =>
    have hnone : (m.find? (fun p => p.1 == k)) = none := by
      rw [List.find?_eq_none]
      intro p hp
      intro hpk
      exact h (List.any_eq_true.mpr ⟨p, hp, hpk⟩)
    simp [dictGet?, List.find?_append, hnone]

theorem dictGet?_insert_ne {κ ν : Type} [BEq κ] [LawfulBEq κ]
    (m : List (κ × ν)) (k : κ) (v : ν) (j : κ) (hne : j ≠ k) :
    dictGet? (dictInsert m k v) j = dictGet? m j := by
  unfold dictInsert
  split
  case isTrue h =>
    clear h
    induction m with
    | nil => rfl
    | cons hd tl ih =>
        by_cases hk : (hd.1 == k) = true
        · have h1 : hd.1 = k := eq_of_beq hk
          have h2 : (k == j) = false := beq_eq_false_iff_ne.mpr (Ne.symm hne)
          have h3 : (hd.1 == j) = false := by rw [h1]; exact h2
          simpa [dictGet?, List.find?, hk, h2, h3] using ih
        · by_cases hj : (hd.1 == j) = true
          · simp [dictGet?, List.find?, hk, hj]
          · simpa [dictGet?, List.find?, hk, hj] using ih
  case isFalse h =>
    have h2 : (k == j) = false := beq_eq_false_iff_ne.mpr (Ne.symm hne)
    simp [dictGet?, List.find?_append, h2]

/-- Lookup after `dict.update` when none of the update's keys is `k`. -/
theorem dictGet?_update_not_mem {κ ν : Type} [BEq κ] [LawfulBEq κ]
    (crit : List (κ × ν)) (d : List (κ × ν)) (k : κ)
    (h : ∀ p ∈ crit, p.1 ≠ k) :
    dictGet? (crit.foldl (fun m kv => dictInsert m kv.1 kv.2) d) k
      = dictGet? d k := by
  induction crit generalizing d with
  | nil => rfl
  | cons hd tl ih =>
      rw [List.foldl_cons, ih _ (fun p hp => h p (by simp [hp]))]
      exact dictGet?_insert_ne d hd.1 hd.2 k
        (fun he => h hd (by simp) he.symm)

/-- Lookup after `dict.update` when `k` is among the update's keys: the value
is the update's last binding for `k`. -/
theorem dictGet?_update_mem {κ ν : Type} [BEq κ] [LawfulBEq κ]
    (crit : List (κ × ν)) (d : List (κ × ν)) (k : κ)
    (h : (crit.map Prod.fst).contains k = true) :
    dictGet? (crit.foldl (fun m kv => dictInsert m kv.1 kv.2) d) k
      = (crit.reverse.find? (fun p => p.1 == k)).map (·.2) := by
  induction crit generalizing d with
  | nil => simp at h
  | cons hd tl ih =>
      rw [List.foldl_cons, List.reverse_cons, List.find?_append]
      by_cases hmem : (tl.map Prod.fst).contains k = true
      · rw [ih _ hmem]
        have hsome : (tl.reverse.find? (fun p => p.1 == k)).isSome = true := by
          rcases List.contains_iff_exists_mem_beq.mp hmem with ⟨a, ha, hak⟩
          rcases List.mem_map.mp ha with ⟨p, hp, hpa⟩
          refine List.find?_isSome.mpr ⟨p, by simp [hp], ?_⟩
          rw [hpa, ← eq_of_beq hak]
          simp
        rcases hfind : tl.reverse.find? (fun p => p.1 == k) with _ | p
        · rw [hfind] at hsome; nomatch hsome
        · rw [hfind]; simp
      · have hk : hd.1 = k := by
          rcases List.contains_iff_exists_mem_beq.mp h with ⟨a, ha, hak⟩
          rcases List.mem_map.mp ha with ⟨p, hp, hpa⟩
          have hka : k = a := eq_of_beq hak
          rcases List.mem_cons.mp hp with hp1 | hp2
          · rw [hp1] at hpa; rw [hpa]; exact hka.symm
          · exact absurd (List.contains_iff_exists_mem_beq.mpr
              ⟨p.1, List.mem_map.mpr ⟨p, hp2, rfl⟩, by rw [hpa]; exact hak⟩) hmem
        have htl : ∀ p ∈ tl, p.1 ≠ k := by
          intro p hp he
          exact hmem (List.contains_iff_exists_mem_beq.mpr
            ⟨p.1, List.mem_map.mpr ⟨p, hp, rfl⟩, by simp [he]⟩)
        rw [dictGet?_update_not_mem tl _ k htl]
        have hknone : tl.reverse.find? (fun p => p.1 == k) = none := by
          rw [List.find?_eq_none]
          intro p hp hpk
          exact htl p (List.mem_reverse.mp hp) (eq_of_beq hpk)
        rw [hknone]
        subst hk
        simp [dictGet?_insert_self, List.find?]

/-! ## Claim theorems -/

/-- Claim C2: parsing the one-row Testland spreadsheet yields exactly one
entity whose series is `{2018 ↦ 100, 2020 ↦ 50}` (the 2019 cell dropped as
non-positive), and the per-entity aggregation over `(2018, 2020)` yields
`total = 150` and `average = 75` (denominator: 2 positive years). -/
theorem c2_testland_roundtrip :
    envParse gC2 = [eTestland] ∧
    eTestland.data_by_year = [(2018, 100), (2020, 50)] ∧
    (countryAggProcess (envParse gC2) (2018, 2020)).totals = [150] ∧
    (countryAggProcess (envParse gC2) (2018, 2020)).averages = [75] := by
  have h1 : envParse gC2 = [eTestland] := by decide
  have hy : yearList 2018 2020 = [2018, 2019, 2020] := by decide
  have hd : denseVals eTestland.data_by_year [2018, 2019, 2020] = [100, 0, 50] := by
    decide
  refine ⟨h1, by decide, ?_, ?_⟩ <;>
  · rw [h1]
    simp only [countryAggProcess, hy, hd, List.filter_cons, List.filter_nil]
    norm_num [posAverage, hd]

/-- Counterexample to claim C4: a corrupt/unreadable file (any `read_excel`
exception other than `FileNotFoundError`) does not make the loaders raise —
both catch the exception, log it, and return the normal empty list. -/
theorem c4_counterexample :
    envLoad (ReadOutcome.ioError "corrupt archive") = .ok [] ∧
    tranLoad (ReadOutcome.ioError "corrupt archive") = .ok [] :=
  ⟨rfl, rfl⟩

/-- Claim C4 (amended): no failure of the underlying I/O ever propagates;
a missing file returns `[]` silently, any other exception is caught/logged
and `[]` is returned, and a readable file returns the parse result — the
loaders never surface an error value. -/
theorem c4_load_never_raises (r : ReadOutcome) :
    (∀ m, r = .ioError m → envLoad r = .ok [] ∧ tranLoad r = .ok []) ∧
    (r = .fileNotFound → envLoad r = .ok [] ∧ tranLoad r = .ok []) ∧
    (∀ g, r = .ok g → envLoad r = .ok (envParse g) ∧ tranLoad r = .ok (tranParse g)) := by
  refine ⟨?_, ?_, ?_⟩
  · intro m h; subst h; exact ⟨rfl, rfl⟩
  · intro h; subst h; exact ⟨rfl, rfl⟩
  · intro g h; subst h; exact ⟨rfl, rfl⟩

theorem c4_load_never_raises_witness :
    envLoad (ReadOutcome.ioError "boom") = .ok [] ∧
    tranLoad (ReadOutcome.ioError "boom") = .ok [] :=
  (c4_load_never_raises (.ioError "boom")).1 "boom" rfl

/-- Counterexample to claim C3: the transport grid `gTr` materializes a
region entity whose series stores the non-positive value `0` — the region
loader keeps zeros (`value >= 0`), so series values are not all strictly
positive. -/
theorem c3_counterexample :
    ¬ (∀ r ∈ tranParse gTr, ∀ p ∈ r.data_by_year, 0 < p.2) := by
  decide

/-- Counterexample to claim C9: a region row whose code cell is blank gets
the fallback code `'UNKNOWN'`, and the parser materializes it with
`nuts_level = 0`, while the claim's pure length rule gives 3 — so the
derived level is not the stated function of the code's length. -/
theorem c9_counterexample :
    ¬ (∀ r ∈ tranParse gTr, r.nuts_level = levelLengthRule r.region_code) := by
  decide

/-- Claim C3 (amended): country entities store only strictly positive
values (`value > 0`), while region entities store only non-negative values
(`value >= 0`) — zeros are kept for regions; negative and unparseable cells
are dropped for both, never zero-filled. -/
theorem c3_series_sign :
    (∀ g : Grid, ∀ c ∈ envParse g, ∀ p ∈ c.data_by_year, 0 < p.2) ∧
    (∀ g : Grid, ∀ r ∈ tranParse g, ∀ p ∈ r.data_by_year, 0 ≤ p.2) := by
  constructor
  · intro g c hc p hp
    rcases envParse_mem_series hc with ⟨r, hr⟩
    exact envRowSeries_pos g r p (hr ▸ hp)
  · intro g e he p hp
    rcases tranParse_mem_shape he with ⟨r, hr, -, -⟩
    exact tranRowSeries_nonneg g r p (hr ▸ hp)

theorem c3_series_sign_witness :
    (0 : ℚ) ≤ (((2018 : Int), (0 : ℚ))).2 :=
  c3_series_sign.2 gTr rMazowsze (by decide) ((2018 : Int), (0 : ℚ)) (by decide)

/-- Claim C9 (amended): the derived NUTS level is the pure length rule
(2 chars → 0, 3 → 1, 4 → 2, else → 3) except that an empty code or the
blank-cell fallback `'UNKNOWN'` is mapped to level 0; in particular
`"PL" → 0`, `"PL1" → 1`, `"PL12" → 2`. -/
theorem c9_nuts_level_rule :
    (∀ g : Grid, ∀ r ∈ tranParse g,
        r.nuts_level =
          if r.region_code = "" ∨ r.region_code = "UNKNOWN" then 0
          else levelLengthRule r.region_code) ∧
    get_nuts_level "PL" = 0 ∧ get_nuts_level "PL1" = 1 ∧
    get_nuts_level "PL12" = 2 := by
  refine ⟨?_, by decide, by decide, by decide⟩
  intro g e he
  rcases tranParse_mem_shape he with ⟨r, -, hcode, hlvl⟩
  rw [hlvl, hcode, get_nuts_level_eq_rule]

theorem c9_nuts_level_rule_witness :
    rMazowsze.nuts_level =
      if rMazowsze.region_code = "" ∨ rMazowsze.region_code = "UNKNOWN" then 0
      else levelLengthRule rMazowsze.region_code :=
  c9_nuts_level_rule.1 gTr rMazowsze (by decide)

/-- Counterexample to claim C1: in `gC1a` the year 2018 is detected at
header column 1 yet its stored value is 100 — the content of column 1
itself — while column `c+1 = 2` holds 999; in `gC1b` the year 2018 is
detected at header column 3 (the anchor at column 1 being blank) yet its
stored value is 55, read from column `1 + 2·0`, while column `c+1 = 4`
holds 999.  The parser never reads the adjacent column `c+1`, and a skipped
header anchor shifts the year-to-column pairing. -/
theorem c1_counterexample :
    envYearCols gC1a = [(2018, 1)] ∧
    cellAt gC1a 10 2 = .num 999 ∧
    envParse gC1a = [{ country_code := "AL", country_name := "Aland",
                       data_by_year := [(2018, 100)],
                       data_type := "environmental" }] ∧
    envYearCols gC1b = [(2018, 3)] ∧
    cellAt gC1b 10 4 = .num 999 ∧
    envParse gC1b = [{ country_code := "BL", country_name := "Bland",
                       data_by_year := [(2018, 55)],
                       data_type := "environmental" }] := by
  refine ⟨?_, ?_, ?_, ?_, ?_, ?_⟩ <;> decide

/-- Claim C1 (amended): the parser collects valid years in anchor-column
order (country anchors 1, 3, 5, …; region anchors 2, 4, 6, …) and pairs the
`i`-th collected year with the value read from column `start + 2·i` itself —
never from the adjacent column `c+1`; the `i`-th year's detection column
equals its value column `start + 2·i` precisely when no anchor header cell
is skipped, and a blank or invalid anchor in between shifts the pairing to
earlier columns. -/
theorem c1_year_column_pairing (g : Grid) :
    (envYears g = (envYearCols g).map Prod.fst) ∧
    (tranYears g = (tranYearCols g).map Prod.fst) ∧
    (∀ r i, envValueAt g r i = envCellCheck g r (1 + i * 2)) ∧
    (∀ r i, tranValueAt g r i = tranCellCheck g r (2 + i * 2)) ∧
    (noSkipEnvHeader g →
      ∀ i, (hi : i < (envYearCols g).length) →
        ((envYearCols g).get ⟨i, hi⟩).2 = 1 + i * 2) ∧
    (noSkipTranHeader g →
      ∀ i, (hi : i < (tranYearCols g).length) →
        ((tranYearCols g).get ⟨i, hi⟩).2 = 2 + i * 2) := by
  refine ⟨filterMap_year_fst _ _, filterMap_year_fst _ _,
    fun _ _ => rfl, fun _ _ => rfl, ?_, ?_⟩
  · intro hns i hi
    have hAll : ∀ c ∈ pyRange2 1 g.ncols,
        ((cellYear (cellAt g header_row c)).map
          (fun y => (y, c))).isSome = true := by
      intro c hc
      simpa [Option.isSome_map] using hns c hc
    have hmap := filterMap_eq_map_of_isSome
      (fun c => (cellYear (cellAt g header_row c)).map (fun y => (y, c)))
      ((0 : Int), (0 : Nat)) (pyRange2 1 g.ncols) hAll
    have hx : envYearCols g =
        (pyRange2 1 g.ncols).map
          (fun c => ((cellYear (cellAt g header_row c)).map
            (fun y => (y, c))).getD ((0 : Int), (0 : Nat))) := hmap
    have hlen : i < (pyRange2 1 g.ncols).length := by
      have := hx ▸ hi
      simpa [List.length_map] using this
    have hc : (pyRange2 1 g.ncols).get ⟨i, hlen⟩ = 1 + 2 * i := by
      simp [pyRange2, List.get_eq_getElem]
    rcases Option.isSome_iff_exists.mp
        (hns ((pyRange2 1 g.ncols).get ⟨i, hlen⟩) (List.get_mem _ _ _)) with ⟨y, hy⟩
    have : (envYearCols g).get ⟨i, hi⟩ =
        ((cellYear (cellAt g header_row ((pyRange2 1 g.ncols).get ⟨i, hlen⟩))).map
          (fun yy => (yy, (pyRange2 1 g.ncols).get ⟨i, hlen⟩))).getD
            ((0 : Int), (0 : Nat)) := by
      rw [List.get_eq_getElem, List.get_eq_getElem]
      simp only [hx, List.getElem_map]
    rw [this, hy]
    show (pyRange2 1 g.ncols).get ⟨i, hlen⟩ = 1 + i * 2
    rw [hc]
    omega
  · intro hns i hi
    have hAll : ∀ c ∈ pyRange2 2 g.ncols,
        ((cellYear (cellAt g header_row c)).map
          (fun y => (y, c))).isSome = true := by
      intro c hc
      simpa [Option.isSome_map] using hns c hc
    have hmap := filterMap_eq_map_of_isSome
      (fun c => (cellYear (cellAt g header_row c)).map (fun y => (y, c)))
      ((0 : Int), (0 : Nat)) (pyRange2 2 g.ncols) hAll
    have hx : tranYearCols g =
        (pyRange2 2 g.ncols).map
          (fun c => ((cellYear (cellAt g header_row c)).map
            (fun y => (y, c))).getD ((0 : Int), (0 : Nat))) := hmap
    have hlen : i < (pyRange2 2 g.ncols).length := by
      have := hx ▸ hi
      simpa [List.length_map] using this
    have hc : (pyRange2 2 g.ncols).get ⟨i, hlen⟩ = 2 + 2 * i := by
      simp [pyRange2, List.get_eq_getElem]
    rcases Option.isSome_iff_exists.mp
        (hns ((pyRange2 2 g.ncols).get ⟨i, hlen⟩) (List.get_mem _ _ _)) with ⟨y, hy⟩
    have : (tranYearCols g).get ⟨i, hi⟩ =
        ((cellYear (cellAt g header_row ((pyRange2 2 g.ncols).get ⟨i, hlen⟩))).map
          (fun yy => (yy, (pyRange2 2 g.ncols).get ⟨i, hlen⟩))).getD
            ((0 : Int), (0 : Nat)) := by
      rw [List.get_eq_getElem, List.get_eq_getElem]
      simp only [hx, List.getElem_map]
    rw [this, hy]
    show (pyRange2 2 g.ncols).get ⟨i, hlen⟩ = 2 + i * 2
    rw [hc]
    omega

theorem c1_year_column_pairing_witness :
    ((envYearCols gC2).get ⟨1, by decide⟩).2 = 1 + 1 * 2 :=
  (c1_year_column_pairing gC2).2.2.2.2.1 (by decide) 1 (by decide)

/-- Claim C7: an empty selection list imposes no restriction — the filtered
view returns the full (criteria-narrowed, for regions) collection — while a
non-empty selection restricts to exact name matches; a selection naming a
non-existent entity yields an empty result, not an error. -/
theorem c7_filtered_view (st : DMState) (x : String) :
    (st.selected_countries = [] → get_filtered_env_data st = st.env_data) ∧
    (st.selected_countries ≠ [] →
      get_filtered_env_data st =
        st.env_data.filter (fun c => st.selected_countries.contains c.country_name)) ∧
    ((∀ c ∈ st.env_data, c.country_name ≠ x) →
      get_filtered_env_data { st with selected_countries := [x] } = []) ∧
    (st.selected_regions = [] →
      get_filtered_tran_data st = tranCriteriaNarrow st st.tran_data) ∧
    (st.selected_regions ≠ [] →
      get_filtered_tran_data st =
        tranCriteriaNarrow st
          (st.tran_data.filter (fun r => st.selected_regions.contains r.region_name))) ∧
    ((∀ r ∈ st.tran_data, r.region_name ≠ x) →
      (∀ v, dictGet? st.data_filter "country_code" = some v → ∃ s, v = .s s) →
      get_filtered_tran_data { st with selected_regions := [x] } = .ok []) := by
  refine ⟨?_, ?_, ?_, ?_, ?_, ?_⟩
  · intro h; simp [get_filtered_env_data, h]
  · intro h
    rcases hsel : st.selected_countries with _ | ⟨a, l⟩
    · exact absurd hsel h
    · simp [get_filtered_env_data, hsel]
  · intro h
    simp only [get_filtered_env_data, List.isEmpty_cons, if_neg Bool.false_ne_true]
    rw [List.filter_eq_nil]
    intro c hc
    simp [List.contains, h c hc]
  · intro h; simp [get_filtered_tran_data, h]
  · intro h
    rcases hsel : st.selected_regions with _ | ⟨a, l⟩
    · exact absurd hsel h
    · simp [get_filtered_tran_data, hsel]
  · intro h hwt
    have hnil : ({ st with selected_regions := [x] } : DMState).tran_data.filter
        (fun r => [x].contains r.region_name) = [] := by
      rw [List.filter_eq_nil]
      intro r hr
      simp [List.contains, h r hr]
    simp only [get_filtered_tran_data, List.isEmpty_cons, if_neg Bool.false_ne_true,
      hnil]
    unfold tranCriteriaNarrow
    rcases hcc : dictGet? st.data_filter "country_code" with _ | fv
    · simp only [hcc]
      rcases hnl : dictGet? st.data_filter "nuts_level" with _ | fw
      · simp [hnl]
      · cases fw <;> simp [hnl]
    · rcases hwt fv hcc with ⟨s, hs⟩
      subst hs
      simp only [hcc]
      rcases hnl : dictGet? st.data_filter "nuts_level" with _ | fw
      · simp [hnl]
      · cases fw <;> simp [hnl]

theorem c7_filtered_view_witness :
    get_filtered_tran_data { stW with selected_regions := ["X"] } = .ok [] :=
  (c7_filtered_view stW "X").2.2.2.2.2 (by decide)
    (fun v h => by
      rw [show dictGet? stW.data_filter "country_code"
            = some (FilterVal.s "PL") from rfl] at h
      exact ⟨"PL", (Option.some_inj.mp h).symm⟩)

/-- Claim C8: `set_year_range` first commits the new range (leaving every
other field unchanged), then notifies each registered observer exactly once,
in registration order, with the already-committed state; an observer's
exception is caught into the log (`some msg`) and never prevents later
observers from being invoked nor the mutator from returning its state. -/
theorem c8_listener_isolation (st : DMState) (obs : List ObserverFun)
    (yr : Int × Int) :
    (set_year_range st obs yr).1 = { st with year_range := yr } ∧
    (set_year_range st obs yr).2.length = obs.length ∧
    (∀ i, (hi : i < obs.length) →
      ((set_year_range st obs yr).2)[i]? =
        some (caught ((obs.get ⟨i, hi⟩) { st with year_range := yr }
          "year_range_changed"
          (.yearRangeChanged st.year_range yr (yr.2 - yr.1 + 1))))) := by
  refine ⟨rfl, by simp [set_year_range, notifyAll], ?_⟩
  intro i hi
  simp [set_year_range, notifyAll, List.getElem?_map,
    List.getElem?_eq_getElem hi, caught, List.get_eq_getElem]

theorem c8_listener_isolation_witness :
    ((set_year_range DMState.init [oBoom, oQuiet] (2019, 2021)).2)[0]? =
      some (some "boom") ∧
    ((set_year_range DMState.init [oBoom, oQuiet] (2019, 2021)).2)[1]? =
      some none :=
  ⟨(c8_listener_isolation DMState.init [oBoom, oQuiet] (2019, 2021)).2.2
      0 (by decide),
   (c8_listener_isolation DMState.init [oBoom, oQuiet] (2019, 2021)).2.2
      1 (by decide)⟩

/-- Claim C10: `apply_filter` merges the given criteria into the existing
filter map: keys not mentioned keep their old values, mentioned keys take
their (last) new value, and no key is ever removed; `clear_filters` is the
operation that resets the map to empty; and neither operation — nor any
other mutator — touches the entity collections, year range or selections
(respectively the filter map). -/
theorem c10_filter_merge (st : DMState) (obs : List ObserverFun)
    (m : List (String × FilterVal)) (k : String) (v : FilterVal)
    (yr : Int × Int) (sel : List String) (cd : List CountryData)
    (rd : List RegionData) :
    ((dictGet? st.data_filter k = some v → (∀ p ∈ m, p.1 ≠ k) →
        dictGet? (apply_filter st obs m).1.data_filter k = some v) ∧
     ((m.map Prod.fst).contains k = true →
        dictGet? (apply_filter st obs m).1.data_filter k =
          (m.reverse.find? (fun p => p.1 == k)).map (·.2)) ∧
     ((dictGet? st.data_filter k).isSome = true →
        (dictGet? (apply_filter st obs m).1.data_filter k).isSome = true)) ∧
    (clear_filters st obs).1.data_filter = [] ∧
    ((apply_filter st obs m).1.env_data = st.env_data ∧
     (apply_filter st obs m).1.tran_data = st.tran_data ∧
     (apply_filter st obs m).1.year_range = st.year_range ∧
     (apply_filter st obs m).1.selected_countries = st.selected_countries ∧
     (apply_filter st obs m).1.selected_regions = st.selected_regions) ∧
    ((clear_filters st obs).1.env_data = st.env_data ∧
     (clear_filters st obs).1.tran_data = st.tran_data ∧
     (clear_filters st obs).1.year_range = st.year_range ∧
     (clear_filters st obs).1.selected_countries = st.selected_countries ∧
     (clear_filters st obs).1.selected_regions = st.selected_regions) ∧
    ((set_year_range st obs yr).1.data_filter = st.data_filter ∧
     (set_selected_countries st obs sel).1.data_filter = st.data_filter ∧
     (set_selected_regions st obs sel).1.data_filter = st.data_filter ∧
     (load_environmental_data st obs cd).1.data_filter = st.data_filter ∧
     (load_transport_data st obs rd).1.data_filter = st.data_filter) := by
  refine ⟨⟨?_, ?_, ?_⟩, rfl, ⟨rfl, rfl, rfl, rfl, rfl⟩,
    ⟨rfl, rfl, rfl, rfl, rfl⟩, ⟨rfl, rfl, rfl, rfl, rfl⟩⟩
  · intro hv hnm
    show dictGet? (m.foldl (fun d kv => dictInsert d kv.1 kv.2) st.data_filter) k
      = some v
    rw [dictGet?_update_not_mem m st.data_filter k hnm]
    exact hv
  · intro hmem
    show dictGet? (m.foldl (fun d kv => dictInsert d kv.1 kv.2) st.data_filter) k
      = (m.reverse.find? (fun p => p.1 == k)).map (·.2)
    exact dictGet?_update_mem m st.data_filter k hmem
  · intro hv
    show (dictGet? (m.foldl (fun d kv => dictInsert d kv.1 kv.2)
      st.data_filter) k).isSome = true
    by_cases hmem : (m.map Prod.fst).contains k = true
    · rw [dictGet?_update_mem m st.data_filter k hmem]
      rcases List.contains_iff_exists_mem_beq.mp hmem with ⟨a, ha, hak⟩
      rcases List.mem_map.mp ha with ⟨p, hp, hpa⟩
      have : (m.reverse.find? (fun p => p.1 == k)).isSome = true := by
        refine List.find?_isSome.mpr ⟨p, by simp [hp], ?_⟩
        rw [hpa, ← eq_of_beq hak]
        simp
      rcases hfind : m.reverse.find? (fun p => p.1 == k) with _ | p
      · rw [hfind] at this; nomatch this
      · rw [hfind]; simp
    · rw [dictGet?_update_not_mem m st.data_filter k]
      · exact hv
      · intro p hp he
        exact hmem (List.contains_iff_exists_mem_beq.mpr
          ⟨p.1, List.mem_map.mpr ⟨p, hp, rfl⟩, by simp [he]⟩)

theorem dictGet?_mem {κ ν : Type} [BEq κ] {m : List (κ × ν)} {k : κ} {v : ν}
    (h : dictGet? m k = some v) : ∃ p ∈ m, p.2 = v := by
  unfold dictGet? at h
  rcases hf : m.find? (fun p => p.1 == k) with _ | p
  · rw [hf] at h; nomatch h
  · rw [hf] at h
    refine ⟨p, List.mem_of_find?_eq_some hf, ?_⟩
    injection h with h'

theorem denseVals_nonneg {m : List (Int × ℚ)} (h : ∀ p ∈ m, 0 ≤ p.2)
    (years : List Int) : ∀ x ∈ denseVals m years, 0 ≤ x := by
  intro x hx
  rcases List.mem_map.mp hx with ⟨y, _, hxy⟩
  rw [← hxy]
  rcases hg : dictGet? m y with _ | v
  · simp
  · rcases dictGet?_mem hg with ⟨p, hp, hpv⟩
    simpa [hg, ← hpv] using h p hp

/-- TopN's positive-years value list is exactly the positive filter of the
dense 0-filled vector over the same range. -/
theorem filterMap_pos_eq_filter_dense (m : List (Int × ℚ)) :
    ∀ years : List Int,
      years.filterMap (fun y =>
        match dictGet? m y with
        | some v => if 0 < v then some v else none
        | none => none)
      = (years.map (fun y => (dictGet? m y).getD 0)).filter
          (fun v => decide (0 < v)) := by
  intro years
  induction years with
  | nil => rfl
  | cons hd tl ih =>
      rcases h : dictGet? m hd with _ | v
      · have h0 : (decide ((0 : ℚ) < 0)) = false := by decide
        simp [List.filterMap_cons, List.filter_cons, h, h0, ih]
      · by_cases hv : 0 < v
        · simp [List.filterMap_cons, List.filter_cons, h, hv, ih]
        · simp [List.filterMap_cons, List.filter_cons, h, hv, ih]

theorem sum_filter_pos (l : List ℚ) (h : ∀ x ∈ l, 0 ≤ x) :
    (l.filter (fun v => decide (0 < v))).sum = l.sum := by
  induction l with
  | nil => rfl
  | cons hd tl ih =>
      have hh := h hd (by simp)
      have ih' := ih (fun x hx => h x (by simp [hx]))
      by_cases hv : 0 < hd
      · simp [List.filter_cons, hv, ih']
      · have h0 : hd = 0 := le_antisymm (not_lt.mp hv) hh
        simp [List.filter_cons, hv, h0, ih']

/-- Claim C5: for an entity (with the data model's non-negative series)
included by both strategies over the same range, the top-N strategy reports
exactly the totals and averages the per-entity strategy reports — both are
the sum over the range divided by the count of positive years — and the
top-N result's display vectors are the same dense 0-filled vectors the
per-entity strategy returns; the strategies differ only in the internal
vector (positive-years-only vs dense). -/
theorem c5_strategy_agreement (e : CountryData) (a b : Int) (n : Nat)
    (sk : SortKey)
    (hnn : ∀ p ∈ e.data_by_year, 0 ≤ p.2)
    (hpos : (denseVals e.data_by_year (yearList a b)).any
      (fun v => decide (0 < v)) = true)
    (hn : 1 ≤ n) :
    (topnProcess n sk [.country e] (a, b)).totals =
      (countryAggProcess [e] (a, b)).totals ∧
    (topnProcess n sk [.country e] (a, b)).averages =
      (countryAggProcess [e] (a, b)).averages ∧
    (topnProcess n sk [.country e] (a, b)).values =
      (countryAggProcess [e] (a, b)).values ∧
    (countryAggProcess [e] (a, b)).values =
      [denseVals e.data_by_year (yearList a b)] := by
  have hpv : topnPosVals (.country e) a b
      = (denseVals e.data_by_year (yearList a b)).filter
          (fun v => decide (0 < v)) := by
    simp only [topnPosVals, Entity.get_value_for_year,
      CountryData.get_value_for_year, denseVals]
    exact filterMap_pos_eq_filter_dense e.data_by_year (yearList a b)
  have hdn := denseVals_nonneg hnn (yearList a b)
  have hsum := sum_filter_pos (denseVals e.data_by_year (yearList a b)) hdn
  have hne : (topnPosVals (.country e) a b).isEmpty = false := by
    rw [hpv]
    rcases List.any_eq_true.mp hpos with ⟨x, hx, hxp⟩
    have hmem : x ∈ (denseVals e.data_by_year (yearList a b)).filter
        (fun v => decide (0 < v)) := List.mem_filter.mpr ⟨hx, hxp⟩
    rcases hfl : (denseVals e.data_by_year (yearList a b)).filter
        (fun v => decide (0 < v)) with _ | ⟨hd, tl⟩
    · rw [hfl] at hmem; simp at hmem
    · rfl
  have hne' : topnPosVals (Entity.country e) a b ≠ [] := by
    intro hcon
    rw [hcon] at hne
    simp at hne
  have hmet : topnMetrics a b [Entity.country e]
      = [mkTopNItem a b (.country e)] := by
    simp [topnMetrics, hne']
  have hsort : topnSort sk [mkTopNItem a b (.country e)]
      = [mkTopNItem a b (.country e)] := by
    simp [topnSort]
  have htake : ([mkTopNItem a b (.country e)]).take n
      = [mkTopNItem a b (.country e)] := by
    rcases n with _ | m
    · omega
    · simp
  have hinc : ([e].filter (fun c => (denseVals c.data_by_year (yearList a b)).any
      (fun v => decide (0 < v)))) = [e] := by
    simp [List.filter_cons, hpos]
  refine ⟨?_, ?_, ?_, ?_⟩
  · show ((topnSort sk (topnMetrics a b [.country e])).take n).map (·.total) = _
    rw [hmet, hsort, htake]
    simp [countryAggProcess, hinc, mkTopNItem, hpv, hsum]
  · show ((topnSort sk (topnMetrics a b [.country e])).take n).map (·.average) = _
    rw [hmet, hsort, htake]
    simp only [List.map_cons, List.map_nil, countryAggProcess, hinc,
      mkTopNItem, hpv, posAverage, hpos, if_true]
    rw [hsum]
  · show ((topnSort sk (topnMetrics a b [.country e])).take n).map _ = _
    rw [hmet, hsort, htake]
    simp [countryAggProcess, hinc, mkTopNItem]
  · simp [countryAggProcess, hinc]

theorem c5_strategy_agreement_witness :
    (topnProcess 1 .total [.country eTestland] (2018, 2020)).totals =
      (countryAggProcess [eTestland] (2018, 2020)).totals ∧
    (topnProcess 1 .total [.country eTestland] (2018, 2020)).averages =
      (countryAggProcess [eTestland] (2018, 2020)).averages ∧
    (topnProcess 1 .total [.country eTestland] (2018, 2020)).values =
      (countryAggProcess [eTestland] (2018, 2020)).values ∧
    (countryAggProcess [eTestland] (2018, 2020)).values =
      [denseVals eTestland.data_by_year (yearList 2018 2020)] :=
  c5_strategy_agreement eTestland 2018 2020 1 .total (by decide) (by decide)
    (by decide)

/-- A `filterMap` guarded by a boolean test is a `filter` followed by a
`map` (the shape of the `items_with_metrics` loop). -/
theorem filterMap_guard_eq_filter_map {α β : Type} (q : α → Bool) (f : α → β) :
    ∀ l : List α,
      l.filterMap (fun x => if q x then none else some (f x))
        = (l.filter (fun x => !(q x))).map f := by
  intro l
  induction l with
  | nil => rfl
  | cons hd tl ih =>
      by_cases h : q hd = true
      · simp [List.filterMap_cons, List.filter_cons, h, ih]
      · simp [List.filterMap_cons, List.filter_cons, h, ih]

theorem topnMetrics_eq (a b : Int) (data : List Entity) :
    topnMetrics a b data
      = (data.filter (fun e => !(topnPosVals e a b).isEmpty)).map
          (mkTopNItem a b) :=
  filterMap_guard_eq_filter_map (fun e => (topnPosVals e a b).isEmpty)
    (mkTopNItem a b) data

open List in
/-- Claim C6: the result of TopN sorted by 'total' lists at most `n`
entities, their totals are non-increasing consecutively, and entities with
equal sort keys appear in the same relative order as in the (qualifying)
input — the sort is stable. -/
theorem c6_topn_total_sorted (data : List Entity) (a b : Int) (n : Nat) :
    (topnProcess n .total data (a, b)).items.length ≤ n ∧
    List.Chain' (fun x y => y ≤ x) (topnProcess n .total data (a, b)).totals ∧
    (∀ k : ℚ,
      (topnProcess n .total data (a, b)).items.filter
          (fun ent => decide (topnTotalKey ent a b = k)) <+
        data.filter (fun ent =>
          decide (topnTotalKey ent a b = k) &&
            !(topnPosVals ent a b).isEmpty)) := by
  have htrans : ∀ x y z : TopNItem,
      (decide (keyVal .total y ≤ keyVal .total x)) = true →
      (decide (keyVal .total z ≤ keyVal .total y)) = true →
      (decide (keyVal .total z ≤ keyVal .total x)) = true := by
    intro x y z hxy hyz
    rw [decide_eq_true_eq] at *
    exact le_trans hyz hxy
  have htot : ∀ x y : TopNItem,
      ((decide (keyVal .total y ≤ keyVal .total x)) ||
       (decide (keyVal .total x ≤ keyVal .total y))) = true := by
    intro x y
    rcases le_total (keyVal .total y) (keyVal .total x) with h | h <;> simp [h]
  have hsorted : (topnSort .total (topnMetrics a b data)).Pairwise
      (fun m₁ m₂ => (decide (keyVal .total m₂ ≤ keyVal .total m₁)) = true) :=
    List.sorted_mergeSort htrans htot (topnMetrics a b data)
  refine ⟨?_, ?_, ?_⟩
  · show (((topnSort .total (topnMetrics a b data)).take n).map (·.item)).length ≤ n
    rw [List.length_map, List.length_take]
    exact min_le_left _ _
  · show List.Chain' (fun x y => y ≤ x)
      (((topnSort .total (topnMetrics a b data)).take n).map (·.total))
    apply List.Pairwise.chain'
    rw [List.pairwise_map]
    exact ((List.Pairwise.sublist (List.take_sublist n _) hsorted).imp
      (fun h => of_decide_eq_true h))
  · intro k
    have hmetrics := topnMetrics_eq a b data
    have hA : (((topnSort .total (topnMetrics a b data)).take n).map
          (·.item)).filter (fun ent => decide (topnTotalKey ent a b = k))
        = (((topnSort .total (topnMetrics a b data)).take n).filter
            ((fun ent => decide (topnTotalKey ent a b = k)) ∘ (·.item))).map
          (·.item) :=
      List.filter_map _ _
    have hcongr : ((topnSort .total (topnMetrics a b data)).take n).filter
          ((fun ent => decide (topnTotalKey ent a b = k)) ∘ (·.item))
        = ((topnSort .total (topnMetrics a b data)).take n).filter
            (fun mt => decide (mt.total = k)) := by
      apply List.filter_congr
      intro mt hmt
      have hmem : mt ∈ topnMetrics a b data := by
        have h1 : mt ∈ topnSort .total (topnMetrics a b data) :=
          (List.take_sublist n _).mem hmt
        exact List.mem_mergeSort.mp h1
      rw [hmetrics] at hmem
      rcases List.mem_map.mp hmem with ⟨ent, _, hent⟩
      rw [← hent]
      rfl
    have hpw : ((topnMetrics a b data).filter
          (fun mt => decide (mt.total = k))).Pairwise
        (fun m₁ m₂ => (decide (keyVal .total m₂ ≤ keyVal .total m₁)) = true) := by
      apply List.pairwise_of_forall_mem_list
      intro x hx y hy
      have hxk : x.total = k :=
        of_decide_eq_true (List.mem_filter.mp hx).2
      have hyk : y.total = k :=
        of_decide_eq_true (List.mem_filter.mp hy).2
      rw [decide_eq_true_eq]
      show y.total ≤ x.total
      rw [hxk, hyk]
    have hsub : (topnMetrics a b data).filter (fun mt => decide (mt.total = k))
        <+ topnSort .total (topnMetrics a b data) :=
      List.sublist_mergeSort htrans htot hpw (List.filter_sublist _)
    have hself : ((topnMetrics a b data).filter
          (fun mt => decide (mt.total = k))).filter
          (fun mt => decide (mt.total = k))
        = (topnMetrics a b data).filter (fun mt => decide (mt.total = k)) := by
      rw [List.filter_eq_self]
      intro mt hmt
      exact (List.mem_filter.mp hmt).2
    have hsubf : (topnMetrics a b data).filter (fun mt => decide (mt.total = k))
        <+ (topnSort .total (topnMetrics a b data)).filter
            (fun mt => decide (mt.total = k)) := by
      rw [← hself]
      exact List.Sublist.filter _ hsub
    have hperm : (topnSort .total (topnMetrics a b data)).filter
          (fun mt => decide (mt.total = k))
        ~ (topnMetrics a b data).filter (fun mt => decide (mt.total = k)) :=
      (List.mergeSort_perm (topnMetrics a b data) _).filter _
    have heq : (topnMetrics a b data).filter (fun mt => decide (mt.total = k))
        = (topnSort .total (topnMetrics a b data)).filter
            (fun mt => decide (mt.total = k)) :=
      hsubf.eq_of_length hperm.length_eq.symm
    have htakesub : ((topnSort .total (topnMetrics a b data)).take n).filter
          (fun mt => decide (mt.total = k))
        <+ (topnMetrics a b data).filter (fun mt => decide (mt.total = k)) := by
      rw [heq]
      exact List.Sublist.filter _ (List.take_sublist n _)
    have hD : (topnMetrics a b data).filter (fun mt => decide (mt.total = k))
        = ((data.filter (fun ent =>
              ((fun mt => decide (mt.total = k)) ∘ mkTopNItem a b) ent &&
                !(topnPosVals ent a b).isEmpty)).map (mkTopNItem a b)) := by
      rw [hmetrics, List.filter_map, List.filter_filter]
    have hE : ((data.filter (fun ent =>
            ((fun mt => decide (mt.total = k)) ∘ mkTopNItem a b) ent &&
              !(topnPosVals ent a b).isEmpty)).map (mkTopNItem a b)).map (·.item)
        = data.filter (fun ent =>
            decide (topnTotalKey ent a b = k) &&
              !(topnPosVals ent a b).isEmpty) := by
      rw [List.map_map]
      have : ∀ l : List Entity, l.map ((·.item) ∘ mkTopNItem a b) = l := by
        intro l
        induction l with
        | nil => rfl
        | cons hd tl ih => simp only [List.map_cons, ih]; rfl
      rw [this]
      apply List.filter_congr
      intro ent _
      rfl
    calc (((topnSort .total (topnMetrics a b data)).take n).map
          (·.item)).filter (fun ent => decide (topnTotalKey ent a b = k))
        = (((topnSort .total (topnMetrics a b data)).take n).filter
            (fun mt => decide (mt.total = k))).map (·.item) := by
          rw [hA, hcongr]
      _ <+ ((topnMetrics a b data).filter
            (fun mt => decide (mt.total = k))).map (·.item) :=
          List.Sublist.map _ htakesub
      _ = data.filter (fun ent =>
            decide (topnTotalKey ent a b = k) &&
              !(topnPosVals ent a b).isEmpty) := by
          rw [hD, hE]

theorem c10_filter_merge_witness :
    dictGet? (apply_filter stW [] [("nuts_level", FilterVal.n 2)]).1.data_filter
        "country_code" = some (FilterVal.s "PL") :=
  (c10_filter_merge stW [] [("nuts_level", FilterVal.n 2)] "country_code"
      (FilterVal.s "PL") (0, 0) [] [] []).1.1 (by decide) (by decide)

end MapPy
